import Mathlib

/-!
Verification of the resilient data-acquisition layer of the cryptocurrency
price tracker in `src/cryptocurrency-app.py`.

The embedding covers the core the specification describes: the transport
retry policy (`requests_retry_session`, lines 13–29), the market-data
fetcher with its error classification (`get_crypto_data`, lines 31–86),
the fallback provider (`get_fallback_crypto_data`, lines 89–97) and the
fallback-substitution orchestration (lines 126–131).

The network and the JSON parse are environment: the outcome of the
`try` block's I/O is an explicit input (`RequestOutcome`).  Cell values
are modelled as rationals and strings; the code performs no arithmetic
on them, it only moves them between containers.
-/

namespace CryptoApp

/-- Scalar cell values of the market table: a JSON string, a JSON number
(modelled as a rational; the code never computes with these values), or
null/NaN for an absent field. -/
inductive Value where
  | str (s : String)
  | num (q : ℚ)
  | null
deriving DecidableEq, Repr

/-- One parsed JSON object of the response body: an association list from
field names to scalar values, in field order. -/
abbrev Obj := List (String × Value)

/-- A pandas DataFrame, as the code uses it: an ordered column list and a
list of rows, each row aligned with the columns. -/
structure DataFrame where
  columns : List String
  rows : List (List Value)
deriving DecidableEq, Repr

/-- Pandas `DataFrame.empty`: true when either axis has length zero. -/
def DataFrame.empty (df : DataFrame) : Bool :=
  df.rows.isEmpty || df.columns.isEmpty

/-- Pandas `pd.DataFrame()`: no columns, no rows (source line 86). -/
def emptyDataFrame : DataFrame :=
  ⟨[], []⟩

/-- The cell of a row at a named column (pandas `df[c]` for one row). -/
def DataFrame.cell (df : DataFrame) (row : List Value) (c : String) : Value :=
  ((df.columns.zip row).lookup c).getD Value.null

/-- Append a key to a column list if it is not already present. -/
def insertKey (ks : List String) (k : String) : List String :=
  if ks.contains k then ks else ks ++ [k]

/-- The keys of one JSON object, in order. -/
def objKeys (o : Obj) : List String :=
  o.map Prod.fst

/-- Column index of `pd.DataFrame(list_of_dicts)`: the union of the
objects' keys in order of first appearance. -/
def unionKeys (objs : List Obj) : List String :=
  objs.foldl (fun acc o => (objKeys o).foldl insertKey acc) []

/-- The row pandas builds for one object: one cell per column, the
object's value there or NaN (here `Value.null`) when the key is absent. -/
def rowFor (cols : List String) (o : Obj) : List Value :=
  cols.map (fun c => ((o.lookup c).getD Value.null))

/-- Pandas `pd.DataFrame(data)` for `data` a list of JSON objects
(source line 55): one row per object, columns the union of keys. -/
def dataFrameOfRecords (objs : List Obj) : DataFrame :=
  ⟨unionKeys objs, objs.map (rowFor (unionKeys objs))⟩

/-- Pandas `pd.DataFrame(dict_of_lists)` (source line 97): columns are the
dict keys in order, rows are the transpose of the value lists. -/
def dataFrameOfColumns (cols : List (String × List Value)) : DataFrame :=
  ⟨cols.map Prod.fst, (cols.map Prod.snd).transpose⟩

/-- The urllib3 `Retry` configuration object built inside
`requests_retry_session` (source lines 18–24). -/
structure Retry where
  total : Nat
  read : Nat
  connect : Nat
  backoff_factor : ℚ
  status_forcelist : List Nat
deriving DecidableEq, Repr

/-- The configuration `requests_retry_session` builds (source lines
13–29): the same `retries` bound is used for `total`, `read` and
`connect`, with the given backoff factor and status forcelist. -/
def requests_retry_session (retries : Nat) (backoff_factor : ℚ)
    (status_forcelist : List Nat) : Retry :=
  ⟨retries, retries, retries, backoff_factor, status_forcelist⟩

/-- The session actually used by `get_crypto_data` (source line 33):
`requests_retry_session()` with its default arguments, `retries = 3`,
`backoff_factor = 0.3`, `status_forcelist = (500, 502, 504, 429)`
(source lines 14–16). -/
def sessionRetry : Retry :=
  requests_retry_session 3 (3/10) [500, 502, 504, 429]

/-- Outcome of one raw HTTP attempt as the transport layer sees it: a
response with a status code, a connection-level failure, or a timeout. -/
inductive AttemptResult where
  | response (status : Nat)
  | connError
  | timeoutError
deriving DecidableEq, Repr

/-- Whether the retry policy retries after this attempt outcome: a
connection error or a timeout always is (the `connect` and `read`
bounds), a response is retried exactly when its status is in the
forcelist. -/
def isRetryable (r : Retry) (a : AttemptResult) : Bool :=
  match a with
  | AttemptResult.response s => r.status_forcelist.contains s
  | AttemptResult.connError => true
  | AttemptResult.timeoutError => true

/-- Modelled from the spec: the retry loop executed by urllib3's `Retry`
inside the mounted `HTTPAdapter` is library code outside this
repository; section 4.1 of the spec gives its contract.  `env` is the
environment's outcome for each attempt index.  While retries remain, a
retryable outcome causes a wait of `backoff_factor * 2 ^ (attempt - 1)`
and a further attempt; a non-retryable outcome is delivered immediately;
when retries are exhausted the final outcome is delivered.  The result is
(delivered outcome, attempts performed, backoff waits in order). -/
def runRetryFrom (r : Retry) (env : Nat → AttemptResult) :
    Nat → Nat → AttemptResult × Nat × List ℚ
  | idx, 0 => (env idx, idx + 1, [])
  | idx, left + 1 =>
      if isRetryable r (env idx) then
        let rest := runRetryFrom r env (idx + 1) left
        (rest.1, rest.2.1, r.backoff_factor * 2 ^ idx :: rest.2.2)
      else
        (env idx, idx + 1, [])

/-- Modelled from the spec: one logical request through the retry
session, starting at attempt index 0 with `r.total` retries available. -/
def runRetry (r : Retry) (env : Nat → AttemptResult) :
    AttemptResult × Nat × List ℚ :=
  runRetryFrom r env 0 r.total

/-- The quote currencies offered by the selectbox (source lines 120–123). -/
inductive Currency where
  | usd
  | btc
  | inr
  | eth
  | eur
  | jpy
deriving DecidableEq, Repr

/-- Outcome of the `try` block's I/O (source lines 31–55): the HTTP
request through the retry session, `raise_for_status`, `response.json()`
and the shape of the parsed body.  The network is environment, so this is
an input of the embedded fetcher.

* `success body`: a 2xx response whose JSON body is a list of objects;
  `pd.DataFrame(data)` then builds one row per object.
* `nonTabular`: a 2xx response whose JSON body is not tabular (for
  example a bare string, or an object of scalars); `pd.DataFrame(data)`
  raises `ValueError`, which is not a `requests` exception.
* `httpError status`: `raise_for_status` raised
  `requests.exceptions.HTTPError` for a non-success final status.
* `connectionError`: `requests.exceptions.ConnectionError` after the
  session's retries.
* `timeout`: `requests.exceptions.Timeout` after the session's retries.
* `otherRequestException`: any other `requests.exceptions.RequestException`
  (for example `RetryError` or a JSON decode error raised by
  `response.json()`). -/
inductive RequestOutcome where
  | success (body : List Obj)
  | nonTabular
  | httpError (status : Nat)
  | connectionError
  | timeout
  | otherRequestException
deriving DecidableEq, Repr

/-- The error taxonomy of the user-facing diagnostics the `except` block
emits via `st.error` (source lines 57–84). -/
inductive ErrorKind where
  | rateLimited
  | httpError (status : Nat)
  | connectionFailure
  | timeout
  | unexpectedFailure
deriving DecidableEq, Repr

/-- A Python exception that is not a `requests.exceptions.RequestException`
and therefore escapes the `except` clause of `get_crypto_data`. -/
inductive PyError where
  | valueError
deriving DecidableEq, Repr

/-- What `get_crypto_data` hands back when it returns: the table and the
optional diagnostic it displayed (the `st.error` side channel). -/
structure FetchResult where
  df : DataFrame
  diagnostic : Option ErrorKind
deriving DecidableEq, Repr

/-- The fetcher `get_crypto_data` (source lines 12–86).  `current_price`
is the quote currency parameter; it only selects which upstream response
arrives, so the upstream is a function of it.  On a tabular success the
parsed body becomes the returned DataFrame with no diagnostic (lines
54–55).  A non-tabular success makes `pd.DataFrame` raise `ValueError`,
which the `except requests.exceptions.RequestException` clause does not
catch, so it propagates (`Except.error`).  Each caught request exception
is classified exactly as the `isinstance` chain of lines 59–84 does, a
diagnostic is emitted and the empty DataFrame returned (line 86). -/
def get_crypto_data (current_price : Currency)
    (upstream : Currency → RequestOutcome) : Except PyError FetchResult :=
  match upstream current_price with
  | RequestOutcome.success body =>
      Except.ok ⟨dataFrameOfRecords body, none⟩
  | RequestOutcome.nonTabular =>
      Except.error PyError.valueError
  | RequestOutcome.httpError status =>
      if status = 429 then
        Except.ok ⟨emptyDataFrame, some ErrorKind.rateLimited⟩
      else
        Except.ok ⟨emptyDataFrame, some (ErrorKind.httpError status)⟩
  | RequestOutcome.connectionError =>
      Except.ok ⟨emptyDataFrame, some ErrorKind.connectionFailure⟩
  | RequestOutcome.timeout =>
      Except.ok ⟨emptyDataFrame, some ErrorKind.timeout⟩
  | RequestOutcome.otherRequestException =>
      Except.ok ⟨emptyDataFrame, some ErrorKind.unexpectedFailure⟩

/-- The static fallback dataset (source lines 90–96), written as the dict
of column lists the code passes to `pd.DataFrame`. -/
def fallback_data : List (String × List Value) :=
  [("name",
      [Value.str "Bitcoin", Value.str "Ethereum", Value.str "Tether",
       Value.str "BNB", Value.str "Solana"]),
   ("current_price",
      [Value.num 50000, Value.num 3000, Value.num 1, Value.num 300,
       Value.num 100]),
   ("market_cap",
      [Value.num 1000000000000, Value.num 500000000000,
       Value.num 80000000000, Value.num 50000000000,
       Value.num 30000000000]),
   ("total_volume",
      [Value.num 30000000000, Value.num 20000000000,
       Value.num 50000000000, Value.num 5000000000,
       Value.num 3000000000]),
   ("price_change_percentage_24h",
      [Value.num (25/10), Value.num (-12/10), Value.num (1/10),
       Value.num (15/10), Value.num (-8/10)])]

/-- The fallback provider `get_fallback_crypto_data` (source lines
89–97): a constant DataFrame built from `fallback_data`. -/
def get_fallback_crypto_data : DataFrame :=
  dataFrameOfColumns fallback_data

/-- The acquisition orchestration (source lines 126–131):
`df = get_crypto_data(current_price)`, then `if df.empty:
df = get_fallback_crypto_data()`.  An exception from the fetcher
propagates and aborts the script run. -/
def acquire (current_price : Currency)
    (upstream : Currency → RequestOutcome) : Except PyError DataFrame :=
  match get_crypto_data current_price upstream with
  | Except.error e => Except.error e
  | Except.ok r =>
      Except.ok (if r.df.empty then get_fallback_crypto_data else r.df)

/-- A cell holds a non-negative number. -/
def isNonnegNum : Value → Bool
  | Value.num q => decide (0 ≤ q)
  | _ => false

/-- The three AssetRecord fields the spec requires non-negative, read off
one row of a DataFrame. -/
def rowNonneg (df : DataFrame) (row : List Value) : Bool :=
  isNonnegNum (df.cell row "current_price") &&
  isNonnegNum (df.cell row "market_cap") &&
  isNonnegNum (df.cell row "total_volume")

/-- Every record of the snapshot has non-negative price, cap and volume. -/
def snapshotNonneg (df : DataFrame) : Bool :=
  df.rows.all (rowNonneg df)

/-- A parsed asset object with non-negative numeric price, cap and
volume fields present. -/
def goodAsset (o : Obj) : Bool :=
  isNonnegNum ((o.lookup "current_price").getD Value.null) &&
  isNonnegNum ((o.lookup "market_cap").getD Value.null) &&
  isNonnegNum ((o.lookup "total_volume").getD Value.null)

/-- Outcomes the `except requests.exceptions.RequestException` clause of
`get_crypto_data` catches. -/
def isRequestFailure : RequestOutcome → Bool
  | RequestOutcome.httpError _ => true
  | RequestOutcome.connectionError => true
  | RequestOutcome.timeout => true
  | RequestOutcome.otherRequestException => true
  | _ => false

/-- The field set of one upstream asset object according to the spec's
section 6 (external interfaces). -/
def specFieldSet : List String :=
  ["id", "name", "current_price", "market_cap", "total_volume",
   "price_change_percentage_24h", "image"]

lemma lookup_zip_map_of_mem (f : String → Value) :
    ∀ (cols : List String) (c : String), c ∈ cols →
      (cols.zip (cols.map f)).lookup c = some (f c) := by
  intro cols
  induction cols with
  | nil => intro c hc; cases hc
  | cons k rest ih =>
      intro c hc
      by_cases hck : c = k
      · subst hck
        simp [List.lookup]
      · have h' : c ∈ rest := by
          rcases List.mem_cons.mp hc with h | h
          · exact absurd h hck
          · exact h
        have hbeq : (c == k) = false := beq_eq_false_iff_ne.mpr hck
        simp only [List.map_cons, List.zip_cons_cons, List.lookup, hbeq]
        exact ih c h'

lemma lookup_mem_keys (o : Obj) (c : String) (v : Value)
    (h : o.lookup c = some v) : c ∈ objKeys o := by
  induction o with
  | nil => simp [List.lookup] at h
  | cons kv rest ih =>
      by_cases hck : c = kv.1
      · simp [objKeys, hck]
      · have hbeq : (c == kv.1) = false := beq_eq_false_iff_ne.mpr hck
        rw [show kv = (kv.1, kv.2) from rfl] at h
        simp only [List.lookup, hbeq] at h
        simp [objKeys] at ih ⊢
        exact Or.inr (ih h)

lemma mem_insertKey_iff (ks : List String) (k a : String) :
    a ∈ insertKey ks k ↔ a ∈ ks ∨ a = k := by
  unfold insertKey
  by_cases h : ks.contains k
  · have hk : k ∈ ks := by simpa using h
    simp only [h, if_true]
    constructor
    · exact Or.inl
    · rintro (ha | rfl)
      · exact ha
      · exact hk
  · simp only [h, if_false]
    simp [List.mem_append]

lemma mem_foldl_insertKey (ks : List String) :
    ∀ (acc : List String) (a : String),
      a ∈ ks.foldl insertKey acc ↔ a ∈ acc ∨ a ∈ ks := by
  induction ks with
  | nil => simp
  | cons k rest ih =>
      intro acc a
      simp only [List.foldl_cons]
      rw [ih, mem_insertKey_iff]
      simp [List.mem_cons]
      tauto

lemma mem_unionKeys_aux (objs : List Obj) :
    ∀ (acc : List String) (a : String),
      a ∈ objs.foldl (fun acc o => (objKeys o).foldl insertKey acc) acc ↔
        a ∈ acc ∨ ∃ o ∈ objs, a ∈ objKeys o := by
  induction objs with
  | nil => simp
  | cons o rest ih =>
      intro acc a
      simp only [List.foldl_cons]
      rw [ih, mem_foldl_insertKey]
      simp [List.mem_cons]
      tauto

lemma mem_unionKeys_iff (objs : List Obj) (a : String) :
    a ∈ unionKeys objs ↔ ∃ o ∈ objs, a ∈ objKeys o := by
  unfold unionKeys
  rw [mem_unionKeys_aux]
  simp

lemma cell_dataFrameOfRecords (objs : List Obj) (o : Obj) (c : String)
    (hc : c ∈ unionKeys objs) :
    (dataFrameOfRecords objs).cell (rowFor (unionKeys objs) o) c =
      (o.lookup c).getD Value.null := by
  unfold DataFrame.cell dataFrameOfRecords rowFor
  rw [lookup_zip_map_of_mem _ _ _ hc]
  rfl

lemma exists_lookup_of_isNonnegNum_getD (o : Obj) (c : String)
    (h : isNonnegNum ((o.lookup c).getD Value.null) = true) :
    ∃ v, o.lookup c = some v ∧ isNonnegNum v = true := by
  cases hv : o.lookup c with
  | none => rw [hv] at h; simp [isNonnegNum] at h
  | some v => exact ⟨v, rfl, by rwa [hv] at h⟩

lemma cell_nonneg_of_field (objs : List Obj) (o : Obj) (ho : o ∈ objs)
    (c : String) (h : isNonnegNum ((o.lookup c).getD Value.null) = true) :
    isNonnegNum
      ((dataFrameOfRecords objs).cell (rowFor (unionKeys objs) o) c) = true := by
  obtain ⟨v, hv, hn⟩ := exists_lookup_of_isNonnegNum_getD o c h
  have hk : c ∈ objKeys o := lookup_mem_keys o c v hv
  have hu : c ∈ unionKeys objs := (mem_unionKeys_iff objs c).mpr ⟨o, ho, hk⟩
  rw [cell_dataFrameOfRecords objs o c hu, hv]
  exact hn

lemma rows_length_dataFrameOfRecords (objs : List Obj) :
    (dataFrameOfRecords objs).rows.length = objs.length := by
  simp [dataFrameOfRecords]

lemma snapshotNonneg_of_good (objs : List Obj)
    (hall : ∀ o ∈ objs, goodAsset o = true) :
    snapshotNonneg (dataFrameOfRecords objs) = true := by
  unfold snapshotNonneg
  rw [List.all_eq_true]
  intro row hrow
  have hrow' : row ∈ objs.map (rowFor (unionKeys objs)) := hrow
  obtain ⟨o, ho, rfl⟩ := List.mem_map.mp hrow'
  have hg := hall o ho
  unfold goodAsset at hg
  rw [Bool.and_eq_true, Bool.and_eq_true] at hg
  obtain ⟨⟨h1, h2⟩, h3⟩ := hg
  unfold rowNonneg
  rw [Bool.and_eq_true, Bool.and_eq_true]
  exact ⟨⟨cell_nonneg_of_field objs o ho _ h1,
          cell_nonneg_of_field objs o ho _ h2⟩,
         cell_nonneg_of_field objs o ho _ h3⟩

lemma empty_dataFrameOfRecords_false (objs : List Obj) (hne : objs ≠ [])
    (hkey : unionKeys objs ≠ []) :
    (dataFrameOfRecords objs).empty = false := by
  unfold DataFrame.empty dataFrameOfRecords
  rw [Bool.or_eq_false_iff]
  constructor
  · simpa [List.isEmpty_iff] using hne
  · simpa [List.isEmpty_iff] using hkey

lemma substituted_nonempty (d : DataFrame) :
    (if d.empty then get_fallback_crypto_data else d).empty = false := by
  cases h : d.empty with
  | false => simp [h]
  | true =>
      simp only [h, if_true]
      decide

lemma runRetryFrom_stop (r : Retry) (env : Nat → AttemptResult)
    (left idx : Nat) (h : isRetryable r (env idx) = false) :
    runRetryFrom r env idx left = (env idx, idx + 1, []) := by
  cases left <;> simp [runRetryFrom, h]

lemma runRetryFrom_ge (r : Retry) (env : Nat → AttemptResult) :
    ∀ (left idx : Nat), idx + 1 ≤ (runRetryFrom r env idx left).2.1 := by
  intro left
  induction left with
  | zero => intro idx; simp [runRetryFrom]
  | succ n ih =>
      intro idx
      by_cases h : isRetryable r (env idx) = true
      · simp only [runRetryFrom, h, if_true]
        have := ih (idx + 1)
        omega
      · rw [runRetryFrom_stop r env (n + 1) idx (by simpa using h)]

lemma runRetryFrom_le (r : Retry) (env : Nat → AttemptResult) :
    ∀ (left idx : Nat), (runRetryFrom r env idx left).2.1 ≤ idx + left + 1 := by
  intro left
  induction left with
  | zero => intro idx; simp [runRetryFrom]
  | succ n ih =>
      intro idx
      by_cases h : isRetryable r (env idx) = true
      · simp only [runRetryFrom, h, if_true]
        have := ih (idx + 1)
        omega
      · rw [runRetryFrom_stop r env (n + 1) idx (by simpa using h)]
        show idx + 1 ≤ idx + (n + 1) + 1
        omega

lemma runRetryFrom_delays (r : Retry) (env : Nat → AttemptResult) :
    ∀ (left idx : Nat),
      (runRetryFrom r env idx left).2.2 =
        (List.range ((runRetryFrom r env idx left).2.1 - (idx + 1))).map
          (fun k => r.backoff_factor * 2 ^ (idx + k)) := by
  intro left
  induction left with
  | zero => intro idx; simp [runRetryFrom]
  | succ n ih =>
      intro idx
      by_cases h : isRetryable r (env idx) = true
      · have hge := runRetryFrom_ge r env n (idx + 1)
        simp only [runRetryFrom, h, if_true]
        rw [ih (idx + 1)]
        have h1 : (runRetryFrom r env (idx + 1) n).2.1 - (idx + 1) =
            ((runRetryFrom r env (idx + 1) n).2.1 - (idx + 1 + 1)) + 1 := by
          omega
        rw [h1, List.range_succ_eq_map, List.map_cons, List.map_map]
        have hfun :
            (fun k => r.backoff_factor * 2 ^ (idx + 1 + k)) =
              ((fun k => r.backoff_factor * 2 ^ (idx + k)) ∘ Nat.succ) := by
          funext k
          show r.backoff_factor * 2 ^ (idx + 1 + k) =
            r.backoff_factor * 2 ^ (idx + (k + 1))
          have harith : idx + 1 + k = idx + (k + 1) := by omega
          rw [harith]
        rw [hfun]
        simp
      · rw [runRetryFrom_stop r env (n + 1) idx (by simpa using h)]
        simp

lemma runRetryFrom_deliver (r : Retry) (env : Nat → AttemptResult) :
    ∀ (j left idx : Nat), j ≤ left →
      (∀ i, idx ≤ i → i < idx + j → isRetryable r (env i) = true) →
      isRetryable r (env (idx + j)) = false →
      (runRetryFrom r env idx left).1 = env (idx + j) ∧
        (runRetryFrom r env idx left).2.1 = idx + j + 1 := by
  intro j
  induction j with
  | zero =>
      intro left idx _ _ hstop
      rw [runRetryFrom_stop r env left idx (by simpa using hstop)]
      exact ⟨rfl, rfl⟩
  | succ n ih =>
      intro left idx hle hret hstop
      cases left with
      | zero => omega
      | succ m =>
          have h0 : isRetryable r (env idx) = true :=
            hret idx (le_refl idx) (by omega)
          simp only [runRetryFrom, h0, if_true]
          have harith : idx + 1 + n = idx + (n + 1) := by omega
          have hrec := ih m (idx + 1) (by omega)
            (fun i hi1 hi2 => hret i (by omega) (by omega))
            (by rw [harith]; exact hstop)
          rw [harith] at hrec
          refine ⟨?_, ?_⟩
          · show (runRetryFrom r env (idx + 1) m).1 = env (idx + (n + 1))
            exact hrec.1
          · show (runRetryFrom r env (idx + 1) m).2.1 = idx + (n + 1) + 1
            exact hrec.2

lemma fetch_failure_classified (c : Currency)
    (upstream : Currency → RequestOutcome)
    (h : isRequestFailure (upstream c) = true) :
    ∃ k : ErrorKind,
      get_crypto_data c upstream = Except.ok ⟨emptyDataFrame, some k⟩ := by
  cases hout : upstream c with
  | success body => rw [hout] at h; simp [isRequestFailure] at h
  | nonTabular => rw [hout] at h; simp [isRequestFailure] at h
  | httpError s =>
      by_cases hs : s = 429
      · exact ⟨ErrorKind.rateLimited, by simp [get_crypto_data, hout, hs]⟩
      · exact ⟨ErrorKind.httpError s, by simp [get_crypto_data, hout, hs]⟩
  | connectionError =>
      exact ⟨ErrorKind.connectionFailure, by simp [get_crypto_data, hout]⟩
  | timeout =>
      exact ⟨ErrorKind.timeout, by simp [get_crypto_data, hout]⟩
  | otherRequestException =>
      exact ⟨ErrorKind.unexpectedFailure, by simp [get_crypto_data, hout]⟩

lemma acquire_of_failure (c : Currency)
    (upstream : Currency → RequestOutcome)
    (h : isRequestFailure (upstream c) = true) :
    acquire c upstream = Except.ok get_fallback_crypto_data := by
  obtain ⟨k, hk⟩ := fetch_failure_classified c upstream h
  simp [acquire, hk, emptyDataFrame, DataFrame.empty]

/-- Claim C1 (counterexample).  The claim says `get_crypto_data` never
raises for any exception raised during the request or during parsing of
the response.  It is false: a successful response whose JSON body is not
tabular makes `pd.DataFrame(data)` (source line 55) raise `ValueError`,
which is not a `requests.exceptions.RequestException`, so the `except`
clause of line 57 does not catch it and it propagates to the caller. -/
theorem C1_counterexample :
    get_crypto_data Currency.usd (fun _ => RequestOutcome.nonTabular) =
      Except.error PyError.valueError := rfl

/-- Claim C1 (amended).  For every quote currency and every failure that
is a `requests.exceptions.RequestException` (HTTP error, connection
error, timeout, or any other request exception), `get_crypto_data` does
not raise: it reports a classified diagnostic and returns the empty
table.  Exceptions outside the `requests` hierarchy (such as the pandas
`ValueError` of the counterexample) propagate instead. -/
theorem C1_amended (c : Currency) (upstream : Currency → RequestOutcome)
    (h : isRequestFailure (upstream c) = true) :
    ∃ k : ErrorKind,
      get_crypto_data c upstream = Except.ok ⟨emptyDataFrame, some k⟩ :=
  fetch_failure_classified c upstream h

/-- Claim C1 (witness): the amended theorem applied to a connection
failure in quote currency usd. -/
theorem C1_witness :
    ∃ k : ErrorKind,
      get_crypto_data Currency.usd (fun _ => RequestOutcome.connectionError) =
        Except.ok ⟨emptyDataFrame, some k⟩ :=
  C1_amended Currency.usd (fun _ => RequestOutcome.connectionError) rfl

/-- Claim C3 (counterexample).  The claim says the orchestration always
terminates with a usable snapshot and never in an error state observable
downstream.  It is false: when the fetcher raises the pandas
`ValueError` (non-tabular 2xx body), lines 126–131 re-raise it and the
script run aborts with no snapshot. -/
theorem C3_counterexample :
    acquire Currency.usd (fun _ => RequestOutcome.nonTabular) =
      Except.error PyError.valueError := rfl

/-- Claim C3 (amended).  Whenever the fetcher returns a table (that is,
on every outcome except a non-`requests` exception during parse), the
orchestration substitutes the fallback snapshot exactly when that table
is empty, never merges live and fallback data (the result is wholly one
or the other), and terminates with a usable non-empty snapshot. -/
theorem C3_amended (c : Currency) (upstream : Currency → RequestOutcome)
    (h : upstream c ≠ RequestOutcome.nonTabular) :
    ∃ r : FetchResult,
      get_crypto_data c upstream = Except.ok r ∧
      acquire c upstream =
        Except.ok (if r.df.empty then get_fallback_crypto_data else r.df) ∧
      (if r.df.empty then get_fallback_crypto_data else r.df).empty = false := by
  cases hout : upstream c with
  | nonTabular => exact absurd hout h
  | success body =>
      exact ⟨⟨dataFrameOfRecords body, none⟩,
        by simp [get_crypto_data, hout],
        by simp [acquire, get_crypto_data, hout],
        substituted_nonempty _⟩
  | httpError s =>
      by_cases hs : s = 429
      · exact ⟨⟨emptyDataFrame, some ErrorKind.rateLimited⟩,
          by simp [get_crypto_data, hout, hs],
          by simp [acquire, get_crypto_data, hout, hs],
          substituted_nonempty _⟩
      · exact ⟨⟨emptyDataFrame, some (ErrorKind.httpError s)⟩,
          by simp [get_crypto_data, hout, hs],
          by simp [acquire, get_crypto_data, hout, hs],
          substituted_nonempty _⟩
  | connectionError =>
      exact ⟨⟨emptyDataFrame, some ErrorKind.connectionFailure⟩,
        by simp [get_crypto_data, hout],
        by simp [acquire, get_crypto_data, hout],
        substituted_nonempty _⟩
  | timeout =>
      exact ⟨⟨emptyDataFrame, some ErrorKind.timeout⟩,
        by simp [get_crypto_data, hout],
        by simp [acquire, get_crypto_data, hout],
        substituted_nonempty _⟩
  | otherRequestException =>
      exact ⟨⟨emptyDataFrame, some ErrorKind.unexpectedFailure⟩,
        by simp [get_crypto_data, hout],
        by simp [acquire, get_crypto_data, hout],
        substituted_nonempty _⟩

/-- Claim C3 (witness): the amended theorem applied to a connection
failure in quote currency usd, where the fallback is substituted. -/
theorem C3_witness :
    ∃ r : FetchResult,
      get_crypto_data Currency.usd (fun _ => RequestOutcome.connectionError) =
        Except.ok r ∧
      acquire Currency.usd (fun _ => RequestOutcome.connectionError) =
        Except.ok (if r.df.empty then get_fallback_crypto_data else r.df) ∧
      (if r.df.empty then get_fallback_crypto_data else r.df).empty = false :=
  C3_amended Currency.usd (fun _ => RequestOutcome.connectionError)
    (by decide)

/-- Claim C4: error classification is mutually exclusive and follows the
priority order of the `isinstance` chain (source lines 57–86): an HTTP
error with status 429 is classified RateLimited; any other HTTP error is
classified HttpError carrying the status; a connection failure is
classified ConnectionFailure; a timeout is classified Timeout; any other
request exception is classified UnexpectedFailure — and every classified
error produces a diagnostic plus the empty-table fallback trigger, never
an uncaught failure (the last conjunct: a diagnostic arises only from a
caught request failure). -/
theorem C4_error_classification (c : Currency)
    (upstream : Currency → RequestOutcome) (s : Nat) (hs : s ≠ 429) :
    (upstream c = RequestOutcome.httpError 429 →
        get_crypto_data c upstream =
          Except.ok ⟨emptyDataFrame, some ErrorKind.rateLimited⟩) ∧
    (upstream c = RequestOutcome.httpError s →
        get_crypto_data c upstream =
          Except.ok ⟨emptyDataFrame, some (ErrorKind.httpError s)⟩) ∧
    (upstream c = RequestOutcome.connectionError →
        get_crypto_data c upstream =
          Except.ok ⟨emptyDataFrame, some ErrorKind.connectionFailure⟩) ∧
    (upstream c = RequestOutcome.timeout →
        get_crypto_data c upstream =
          Except.ok ⟨emptyDataFrame, some ErrorKind.timeout⟩) ∧
    (upstream c = RequestOutcome.otherRequestException →
        get_crypto_data c upstream =
          Except.ok ⟨emptyDataFrame, some ErrorKind.unexpectedFailure⟩) ∧
    (∀ k : ErrorKind,
        get_crypto_data c upstream = Except.ok ⟨emptyDataFrame, some k⟩ →
        isRequestFailure (upstream c) = true) := by
  refine ⟨?_, ?_, ?_, ?_, ?_, ?_⟩
  · intro hout; simp [get_crypto_data, hout]
  · intro hout; simp [get_crypto_data, hout, hs]
  · intro hout; simp [get_crypto_data, hout]
  · intro hout; simp [get_crypto_data, hout]
  · intro hout; simp [get_crypto_data, hout]
  · intro k hk
    cases hout : upstream c with
    | success body => simp [get_crypto_data, hout] at hk
    | nonTabular => simp [get_crypto_data, hout] at hk
    | httpError s' => simp [isRequestFailure]
    | connectionError => simp [isRequestFailure]
    | timeout => simp [isRequestFailure]
    | otherRequestException => simp [isRequestFailure]

/-- Claim C4 (witness): the classification theorem applied to a concrete
world whose outcome is an HTTP error with status 404. -/
theorem C4_witness :
    ((fun _ : Currency => RequestOutcome.httpError 404) Currency.usd =
        RequestOutcome.httpError 429 →
      get_crypto_data Currency.usd (fun _ => RequestOutcome.httpError 404) =
        Except.ok ⟨emptyDataFrame, some ErrorKind.rateLimited⟩) ∧
    ((fun _ : Currency => RequestOutcome.httpError 404) Currency.usd =
        RequestOutcome.httpError 404 →
      get_crypto_data Currency.usd (fun _ => RequestOutcome.httpError 404) =
        Except.ok ⟨emptyDataFrame, some (ErrorKind.httpError 404)⟩) ∧
    ((fun _ : Currency => RequestOutcome.httpError 404) Currency.usd =
        RequestOutcome.connectionError →
      get_crypto_data Currency.usd (fun _ => RequestOutcome.httpError 404) =
        Except.ok ⟨emptyDataFrame, some ErrorKind.connectionFailure⟩) ∧
    ((fun _ : Currency => RequestOutcome.httpError 404) Currency.usd =
        RequestOutcome.timeout →
      get_crypto_data Currency.usd (fun _ => RequestOutcome.httpError 404) =
        Except.ok ⟨emptyDataFrame, some ErrorKind.timeout⟩) ∧
    ((fun _ : Currency => RequestOutcome.httpError 404) Currency.usd =
        RequestOutcome.otherRequestException →
      get_crypto_data Currency.usd (fun _ => RequestOutcome.httpError 404) =
        Except.ok ⟨emptyDataFrame, some ErrorKind.unexpectedFailure⟩) ∧
    (∀ k : ErrorKind,
        get_crypto_data Currency.usd (fun _ => RequestOutcome.httpError 404) =
          Except.ok ⟨emptyDataFrame, some k⟩ →
        isRequestFailure
          ((fun _ : Currency => RequestOutcome.httpError 404) Currency.usd) =
          true) :=
  C4_error_classification Currency.usd
    (fun _ => RequestOutcome.httpError 404) 404 (by decide)

/-- Claim C8: the fallback provider is a deterministic constant of the
embedding (no inputs): a fixed set of 5 well-known assets — Bitcoin,
Ethereum, Tether, BNB, Solana — whose current_price, market_cap and
total_volume are all non-negative, and whose table is non-empty. -/
theorem C8_fallback_provider :
    get_fallback_crypto_data.rows.length = 5 ∧
    snapshotNonneg get_fallback_crypto_data = true ∧
    get_fallback_crypto_data.empty = false ∧
    get_fallback_crypto_data.rows.map
        (fun row => get_fallback_crypto_data.cell row "name") =
      [Value.str "Bitcoin", Value.str "Ethereum", Value.str "Tether",
       Value.str "BNB", Value.str "Solana"] := by
  decide

/-- A world whose upstream answers every currency with an empty success
body. -/
def steadyWorld : Currency → RequestOutcome :=
  fun _ => RequestOutcome.success []

/-- A world that agrees with `steadyWorld` at usd and differs elsewhere. -/
def shiftedWorld : Currency → RequestOutcome
  | Currency.usd => RequestOutcome.success []
  | _ => RequestOutcome.connectionError

/-- Claim C9: `get_crypto_data` keeps no state across invocations, so
its result — and the acquired snapshot — depends only on the quote
currency and the upstream response for that currency: two fetches
against worlds that agree at the queried currency produce identical
snapshots, with identical record identities and ordering. -/
theorem C9_idempotent (c : Currency) (w₁ w₂ : Currency → RequestOutcome)
    (h : w₁ c = w₂ c) :
    get_crypto_data c w₁ = get_crypto_data c w₂ ∧
    acquire c w₁ = acquire c w₂ := by
  constructor
  · unfold get_crypto_data
    rw [h]
  · unfold acquire get_crypto_data
    rw [h]

/-- Claim C9 (witness): two concrete worlds agreeing at usd (one of them
failing at every other currency) give identical results. -/
theorem C9_witness :
    get_crypto_data Currency.usd steadyWorld =
      get_crypto_data Currency.usd shiftedWorld ∧
    acquire Currency.usd steadyWorld = acquire Currency.usd shiftedWorld :=
  C9_idempotent Currency.usd steadyWorld shiftedWorld rfl

/-- Claim C10: when the upstream request succeeds with an empty asset
list, `get_crypto_data` returns the empty table with no error-taxonomy
diagnostic, the orchestration substitutes the complete fallback
snapshot, and the result is indistinguishable at the orchestration
boundary from a classified failure such as a connection error. -/
theorem C10_empty_success (c : Currency)
    (upstream : Currency → RequestOutcome)
    (h : upstream c = RequestOutcome.success []) :
    get_crypto_data c upstream = Except.ok ⟨emptyDataFrame, none⟩ ∧
    acquire c upstream = Except.ok get_fallback_crypto_data ∧
    acquire c upstream =
      acquire c (fun _ => RequestOutcome.connectionError) := by
  refine ⟨?_, ?_, ?_⟩
  · simp [get_crypto_data, h, dataFrameOfRecords, unionKeys, emptyDataFrame]
  · simp [acquire, get_crypto_data, h, dataFrameOfRecords, unionKeys,
      emptyDataFrame, DataFrame.empty]
  · rw [acquire_of_failure c (fun _ => RequestOutcome.connectionError) rfl]
    simp [acquire, get_crypto_data, h, dataFrameOfRecords, unionKeys,
      emptyDataFrame, DataFrame.empty]

/-- Claim C10 (witness): the theorem applied to the world that answers
every currency with an empty success body. -/
theorem C10_witness :
    get_crypto_data Currency.usd steadyWorld =
      Except.ok ⟨emptyDataFrame, none⟩ ∧
    acquire Currency.usd steadyWorld = Except.ok get_fallback_crypto_data ∧
    acquire Currency.usd steadyWorld =
      acquire Currency.usd (fun _ => RequestOutcome.connectionError) :=
  C10_empty_success Currency.usd steadyWorld rfl

/-- A single-asset body whose current_price is negative: the code passes
it through unchecked. -/
def C2badBody : List Obj :=
  [[("name", Value.str "BadCoin"), ("current_price", Value.num (-5)),
    ("market_cap", Value.num 1), ("total_volume", Value.num 1)]]

/-- A body of 101 identical asset objects: more rows than the requested
`per_page = 100`, passed through unchecked. -/
def C2bigBody : List Obj :=
  List.replicate 101
    [("name", Value.str "A"), ("current_price", Value.num 1),
     ("market_cap", Value.num 1), ("total_volume", Value.num 1)]

/-- Claim C2 (counterexample).  The claim says the overall fetch always
returns between 1 and 100 records with non-negative price, cap and
volume.  The code validates nothing: a successful body with a negative
current_price is returned as-is; a successful body of 101 records yields
101 rows; and a non-tabular success body aborts with no snapshot at
all. -/
theorem C2_counterexample :
    (acquire Currency.usd (fun _ => RequestOutcome.success C2badBody) =
        Except.ok (dataFrameOfRecords C2badBody) ∧
      snapshotNonneg (dataFrameOfRecords C2badBody) = false) ∧
    (acquire Currency.usd (fun _ => RequestOutcome.success C2bigBody) =
        Except.ok (dataFrameOfRecords C2bigBody) ∧
      (dataFrameOfRecords C2bigBody).rows.length = 101) ∧
    acquire Currency.usd (fun _ => RequestOutcome.nonTabular) =
      Except.error PyError.valueError := by
  have hne : C2bigBody ≠ [] := by
    simp [C2bigBody]
  have ho : ([("name", Value.str "A"), ("current_price", Value.num 1),
      ("market_cap", Value.num 1), ("total_volume", Value.num 1)] : Obj) ∈
      C2bigBody := by
    simp [C2bigBody, List.mem_replicate]
  have hk : "name" ∈ unionKeys C2bigBody :=
    (mem_unionKeys_iff C2bigBody "name").mpr ⟨_, ho, by decide⟩
  have hkey : unionKeys C2bigBody ≠ [] := by
    intro hnil
    rw [hnil] at hk
    cases hk
  have hempty : (dataFrameOfRecords C2bigBody).empty = false :=
    empty_dataFrameOfRecords_false C2bigBody hne hkey
  refine ⟨⟨rfl, by decide⟩, ⟨?_, ?_⟩, rfl⟩
  · simp [acquire, get_crypto_data, hempty]
  · rw [rows_length_dataFrameOfRecords]
    simp [C2bigBody]

/-- Claim C2 (amended).  For every valid quote currency, provided the
successful upstream body honours the upstream contract — at most 100
asset objects, each with non-negative numeric current_price, market_cap
and total_volume — and the body is tabular, the overall fetch operation
(fetcher plus fallback substitution) returns a snapshot of between 1 and
100 records in which every record has non-negative current_price,
market_cap and total_volume.  Without those upstream assumptions the
claim fails, as the counterexample shows. -/
theorem C2_amended (c : Currency) (upstream : Currency → RequestOutcome)
    (hnt : upstream c ≠ RequestOutcome.nonTabular)
    (hgood : ∀ body, upstream c = RequestOutcome.success body →
        body.length ≤ 100 ∧ ∀ o ∈ body, goodAsset o = true) :
    ∃ df : DataFrame, acquire c upstream = Except.ok df ∧
      1 ≤ df.rows.length ∧ df.rows.length ≤ 100 ∧
      snapshotNonneg df = true := by
  cases hout : upstream c with
  | nonTabular => exact absurd hout hnt
  | success body =>
      obtain ⟨hlen, hall⟩ := hgood body hout
      by_cases hb : body = []
      · subst hb
        refine ⟨get_fallback_crypto_data, ?_, by decide, by decide, by decide⟩
        simp [acquire, get_crypto_data, hout, dataFrameOfRecords, unionKeys,
          DataFrame.empty]
      · obtain ⟨o, ho⟩ := List.exists_mem_of_ne_nil body hb
        have hg := hall o ho
        unfold goodAsset at hg
        rw [Bool.and_eq_true, Bool.and_eq_true] at hg
        obtain ⟨⟨h1, _⟩, _⟩ := hg
        obtain ⟨v, hv, _⟩ := exists_lookup_of_isNonnegNum_getD o _ h1
        have hk : "current_price" ∈ unionKeys body :=
          (mem_unionKeys_iff body _).mpr ⟨o, ho, lookup_mem_keys o _ v hv⟩
        have hkey : unionKeys body ≠ [] := by
          intro hnil
          rw [hnil] at hk
          cases hk
        have hempty : (dataFrameOfRecords body).empty = false :=
          empty_dataFrameOfRecords_false body hb hkey
        refine ⟨dataFrameOfRecords body, ?_, ?_, ?_,
          snapshotNonneg_of_good body hall⟩
        · simp [acquire, get_crypto_data, hout, hempty]
        · rw [rows_length_dataFrameOfRecords]
          have : body.length ≠ 0 := fun h0 => hb (List.length_eq_zero.mp h0)
          omega
        · rw [rows_length_dataFrameOfRecords]
          exact hlen
  | httpError s =>
      exact ⟨get_fallback_crypto_data,
        acquire_of_failure c upstream (by rw [hout]; rfl),
        by decide, by decide, by decide⟩
  | connectionError =>
      exact ⟨get_fallback_crypto_data,
        acquire_of_failure c upstream (by rw [hout]; rfl),
        by decide, by decide, by decide⟩
  | timeout =>
      exact ⟨get_fallback_crypto_data,
        acquire_of_failure c upstream (by rw [hout]; rfl),
        by decide, by decide, by decide⟩
  | otherRequestException =>
      exact ⟨get_fallback_crypto_data,
        acquire_of_failure c upstream (by rw [hout]; rfl),
        by decide, by decide, by decide⟩

/-- A single well-formed asset body for the C2 witness. -/
def C2goodBody : List Obj :=
  [[("name", Value.str "Bitcoin"), ("current_price", Value.num 50000),
    ("market_cap", Value.num 10), ("total_volume", Value.num 5)]]

/-- A world answering every currency with the well-formed C2 body. -/
def C2goodWorld : Currency → RequestOutcome :=
  fun _ => RequestOutcome.success C2goodBody

/-- Claim C2 (witness): the amended theorem applied to a concrete
contract-honouring upstream. -/
theorem C2_witness :
    ∃ df : DataFrame, acquire Currency.usd C2goodWorld = Except.ok df ∧
      1 ≤ df.rows.length ∧ df.rows.length ≤ 100 ∧
      snapshotNonneg df = true :=
  C2_amended Currency.usd C2goodWorld (by decide)
    (by
      intro body hb
      have hb' : RequestOutcome.success C2goodBody =
          RequestOutcome.success body := hb
      injection hb' with h
      subst h
      decide)

/-- One upstream asset object with all the fields of the spec's section
6, including the image URL. -/
def C5asset (ident img : String) (p : ℚ) : Obj :=
  [("id", Value.str ident), ("name", Value.str ident),
   ("current_price", Value.num p), ("market_cap", Value.num 1),
   ("total_volume", Value.num 1),
   ("price_change_percentage_24h", Value.num 0),
   ("image", Value.str img)]

/-- A successful raw response of 5 asset objects, each with an image
field. -/
def C5body : List Obj :=
  [C5asset "bitcoin" "img1" 50000, C5asset "ethereum" "img2" 3000,
   C5asset "tether" "img3" 1, C5asset "bnb" "img4" 300,
   C5asset "solana" "img5" 100]

/-- Claim C5 (counterexample).  The claim says the image field is
dropped from the returned table.  It is false: `pd.DataFrame(data)`
(source line 55) keeps every field of the payload, so for a successful
response of 5 asset objects the returned table has exactly 5 records
and an image column whose cells are the five image URLs. -/
theorem C5_counterexample :
    get_crypto_data Currency.usd (fun _ => RequestOutcome.success C5body) =
      Except.ok ⟨dataFrameOfRecords C5body, none⟩ ∧
    (dataFrameOfRecords C5body).rows.length = 5 ∧
    "image" ∈ (dataFrameOfRecords C5body).columns ∧
    (dataFrameOfRecords C5body).rows.map
        (fun row => (dataFrameOfRecords C5body).cell row "image") =
      [Value.str "img1", Value.str "img2", Value.str "img3",
       Value.str "img4", Value.str "img5"] := by
  refine ⟨rfl, rfl, by decide, by decide⟩

/-- Claim C5 (amended).  On a successful tabular fetch of n asset
objects (n ≤ 100), `get_crypto_data` returns exactly n records — but the
upstream fields are passed through unchanged rather than filtered: every
key of every payload object (the image field included) appears among the
returned columns. -/
theorem C5_amended (c : Currency) (upstream : Currency → RequestOutcome)
    (body : List Obj) (hout : upstream c = RequestOutcome.success body)
    (hlen : body.length ≤ 100) :
    ∃ r : FetchResult, get_crypto_data c upstream = Except.ok r ∧
      r.df.rows.length = body.length ∧ r.df.rows.length ≤ 100 ∧
      ∀ o ∈ body, ∀ k ∈ objKeys o, k ∈ r.df.columns := by
  refine ⟨⟨dataFrameOfRecords body, none⟩,
    by simp [get_crypto_data, hout], rows_length_dataFrameOfRecords body,
    ?_, ?_⟩
  · rw [rows_length_dataFrameOfRecords]
    exact hlen
  · intro o ho k hk
    show k ∈ unionKeys body
    exact (mem_unionKeys_iff body k).mpr ⟨o, ho, hk⟩

/-- Claim C5 (witness): the amended theorem applied to the concrete
5-asset response with image fields. -/
theorem C5_witness :
    ∃ r : FetchResult,
      get_crypto_data Currency.usd (fun _ => RequestOutcome.success C5body) =
        Except.ok r ∧
      r.df.rows.length = C5body.length ∧ r.df.rows.length ≤ 100 ∧
      ∀ o ∈ C5body, ∀ k ∈ objKeys o, k ∈ r.df.columns :=
  C5_amended Currency.usd (fun _ => RequestOutcome.success C5body) C5body
    rfl (by decide)

/-- A live body of one asset object carrying exactly the spec's section
6 field set. -/
def C6liveBody : List Obj :=
  [[("id", Value.str "bitcoin"), ("name", Value.str "Bitcoin"),
    ("current_price", Value.num 50000),
    ("market_cap", Value.num 1000000000000),
    ("total_volume", Value.num 30000000000),
    ("price_change_percentage_24h", Value.num (25/10)),
    ("image", Value.str "imgurl")]]

/-- Claim C6 (counterexample).  The claim says the fallback snapshot is
schema-identical to a live snapshot, including the id field.  It is
false: a live snapshot parsed from a section-6-conforming body has an id
column, while `get_fallback_crypto_data` (source lines 89–97) has no id
column, and the two column sets differ. -/
theorem C6_counterexample :
    get_crypto_data Currency.usd (fun _ => RequestOutcome.success C6liveBody) =
      Except.ok ⟨dataFrameOfRecords C6liveBody, none⟩ ∧
    "id" ∈ (dataFrameOfRecords C6liveBody).columns ∧
    "id" ∉ get_fallback_crypto_data.columns ∧
    (dataFrameOfRecords C6liveBody).columns ≠
      get_fallback_crypto_data.columns := by
  refine ⟨rfl, by decide, by decide, by decide⟩

/-- Claim C6 (amended).  The fallback snapshot is not schema-identical
to a live snapshot: it lacks the id field (and the other upstream-only
fields such as image).  What does hold, for every quote currency and
every live body carrying the spec's field set, is that each of the five
fallback columns (name, current_price, market_cap, total_volume,
price_change_percentage_24h) is also a column of the live snapshot. -/
theorem C6_amended (c : Currency) (upstream : Currency → RequestOutcome)
    (body : List Obj) (hout : upstream c = RequestOutcome.success body)
    (hne : body ≠ []) (hkeys : ∀ o ∈ body, objKeys o = specFieldSet) :
    ∃ r : FetchResult, get_crypto_data c upstream = Except.ok r ∧
      (∀ k, k ∈ get_fallback_crypto_data.columns → k ∈ r.df.columns) ∧
      "id" ∈ r.df.columns ∧ "id" ∉ get_fallback_crypto_data.columns := by
  obtain ⟨o₀, ho₀⟩ := List.exists_mem_of_ne_nil body hne
  have hmem : ∀ k : String, k ∈ specFieldSet → k ∈ unionKeys body := by
    intro k hk
    exact (mem_unionKeys_iff body k).mpr
      ⟨o₀, ho₀, by rw [hkeys o₀ ho₀]; exact hk⟩
  refine ⟨⟨dataFrameOfRecords body, none⟩,
    by simp [get_crypto_data, hout], ?_, ?_, by decide⟩
  · intro k hk
    show k ∈ unionKeys body
    apply hmem
    have hk' : k ∈ ["name", "current_price", "market_cap", "total_volume",
        "price_change_percentage_24h"] := hk
    fin_cases hk' <;> decide
  · exact hmem "id" (by decide)

/-- Claim C6 (witness): the amended theorem applied to the concrete
one-asset live body with the full section 6 field set. -/
theorem C6_witness :
    ∃ r : FetchResult,
      get_crypto_data Currency.usd
          (fun _ => RequestOutcome.success C6liveBody) = Except.ok r ∧
      (∀ k, k ∈ get_fallback_crypto_data.columns → k ∈ r.df.columns) ∧
      "id" ∈ r.df.columns ∧ "id" ∉ get_fallback_crypto_data.columns :=
  C6_amended Currency.usd (fun _ => RequestOutcome.success C6liveBody)
    C6liveBody rfl (by decide) (by decide)

/-- Claim C7: the transport policy built by `requests_retry_session`
retries a request that fails with a connection error, a timeout, or a
response status in the forcelist 500, 502, 504, 429, up to
max_retries = 3 times with exponential backoff on backoff_factor = 0.3
(the k-th retry waits 0.3 * 2 ^ (k - 1)), while any other outcome is
delivered immediately without retrying.  The retry-loop semantics of the
mounted adapter are modelled from the spec (`runRetry`); the
configuration values are the source's (lines 13–29). -/
theorem C7_transport_policy :
    requests_retry_session 3 (3/10) [500, 502, 504, 429] = sessionRetry ∧
    sessionRetry.total = 3 ∧
    sessionRetry.read = 3 ∧
    sessionRetry.connect = 3 ∧
    sessionRetry.backoff_factor = 3/10 ∧
    (∀ s : Nat, isRetryable sessionRetry (AttemptResult.response s) = true ↔
        (s = 500 ∨ s = 502 ∨ s = 504 ∨ s = 429)) ∧
    isRetryable sessionRetry AttemptResult.connError = true ∧
    isRetryable sessionRetry AttemptResult.timeoutError = true ∧
    (∀ env : Nat → AttemptResult, isRetryable sessionRetry (env 0) = false →
        runRetry sessionRetry env = (env 0, 1, [])) ∧
    (∀ env : Nat → AttemptResult, (runRetry sessionRetry env).2.1 ≤ 4) ∧
    (∀ env : Nat → AttemptResult,
        (runRetry sessionRetry env).2.2 =
          (List.range ((runRetry sessionRetry env).2.1 - 1)).map
            (fun k => (3 / 10 : ℚ) * 2 ^ k)) ∧
    (∀ (env : Nat → AttemptResult) (j : Nat), j ≤ 3 →
        (∀ i, i < j → isRetryable sessionRetry (env i) = true) →
        isRetryable sessionRetry (env j) = false →
        (runRetry sessionRetry env).1 = env j ∧
          (runRetry sessionRetry env).2.1 = j + 1) := by
  refine ⟨rfl, rfl, rfl, rfl, rfl, ?_, rfl, rfl, ?_, ?_, ?_, ?_⟩
  · intro s
    show ([500, 502, 504, 429].contains s = true) ↔ _
    simp
  · intro env h
    exact runRetryFrom_stop sessionRetry env sessionRetry.total 0 h
  · intro env
    exact runRetryFrom_le sessionRetry env sessionRetry.total 0
  · intro env
    have h := runRetryFrom_delays sessionRetry env sessionRetry.total 0
    have hfun : (fun k : Nat => sessionRetry.backoff_factor * 2 ^ (0 + k)) =
        (fun k : Nat => (3 / 10 : ℚ) * 2 ^ k) := by
      funext k
      rw [Nat.zero_add]
      rfl
    show (runRetryFrom sessionRetry env 0 sessionRetry.total).2.2 =
      (List.range
          ((runRetryFrom sessionRetry env 0 sessionRetry.total).2.1 - 1)).map
        (fun k => (3 / 10 : ℚ) * 2 ^ k)
    rw [h, hfun]
  · intro env j hj hret hstop
    have hd := runRetryFrom_deliver sessionRetry env j sessionRetry.total 0
      hj (fun i h1 h2 => hret i (by omega))
      (by rw [Nat.zero_add]; exact hstop)
    rw [Nat.zero_add] at hd
    exact hd

end CryptoApp
